import Mathlib

/-!
# Verification of the provider-hetzner convergence engine

A shallow embedding of the per-resource convergence engine of the
`provider-hetzner` repository, together with proofs settling the frozen
claims about its natural-language specification.

Conventions of the embedding:

* Go `map[string]string` values are modelled as association lists with
  the update write `mapSet` and first-match read `mapGet`;
  `reflect.DeepEqual` on maps is modelled as mutual lookup-inclusion
  (`mapDeepEqual`).
* Go pointers that the source compares *by address* are modelled as
  `GoPtr α := Option (Nat × α)`: the `Nat` is the address, the `α` the
  pointed-to value.  Pointer (in)equality (`ptrEq`) compares addresses
  only; dereference reads the carried value.  Pointer fields that the
  source only ever reads through `reflect.DeepEqual` or dereference are
  modelled as plain `Option` values, since no observation in the source
  distinguishes their addresses.
* Wall-clock time in the action awaiter is discretised: each
  `time.Sleep(time.Second)` advances elapsed time by exactly one second
  and every other step is instantaneous.
* Provider interactions are modelled by explicit call traces: each
  controller operation is a pure function from its inputs (desired spec,
  recorded `lastApplied`, observed provider state) to the list of
  provider calls it issues and the state it records, on the path where
  every provider call is accepted.
-/

namespace Hetzner

/-! ## Go map model -/

abbrev LabelMap := List (String × String)

/-- Write `m[k] = v` on a Go map.  Realised as remove-then-append, which
has the same map observations (`mapGet`) as in-place replacement. -/

def mapSet (m : LabelMap) (k v : String) : LabelMap :=
  m.filter (fun p => p.1 != k) ++ [(k, v)]

/-- Read `m[k]` on a Go map. -/

def mapGet (m : LabelMap) (k : String) : Option String :=
  (m.find? (fun p => p.1 == k)).map (·.2)

/-- `reflect.DeepEqual` on two string maps: the lookups agree on every
key bound in either map (the embedding does not track Go's
nil-map/empty-map distinction, which no claim depends on). -/

def mapDeepEqual (a b : LabelMap) : Bool :=
  (a.map (·.1) ++ b.map (·.1)).all (fun k => mapGet a k == mapGet b k)

/-! ## Go pointer model

`GoPtr α` models a Go pointer that the source compares by address:
`none` is `nil`, `some (addr, v)` a pointer with address `addr` to value
`v`.  In a real Go heap two pointers with the same address alias the
same value, so every reachable state is representable here. -/

abbrev GoPtr (α : Type) := Option (Nat × α)

/-- Go pointer equality (`==` on two pointers): compares addresses. -/

def ptrEq {α : Type} (a b : GoPtr α) : Bool :=
  match a, b with
  | none, none => true
  | some (x, _), some (y, _) => x == y
  | _, _ => false

/-! ## Label/Metadata Merger — `pkg/hcloud/labels.go` -/

def GeneratedDateTime : String := "crossplane.io/generated-at"

def ProviderLabel : String := "crossplane.io/provider"

def Provider : String := "provider-hetzner"

/-- One pass of `for k, v := range i { labels[k] = v }`. -/

def applyOne (labels : LabelMap) (i : LabelMap) : LabelMap :=
  i.foldl (fun l p => mapSet l p.1 p.2) labels

/-- `for _, i := range input { ... }`. -/

def applyAll (labels : LabelMap) (input : List LabelMap) : LabelMap :=
  input.foldl applyOne labels

/-- `ApplyDefaultLabels` from `pkg/hcloud/labels.go`: seed the map with the
provider marker and the generation timestamp (`now`, the Unix time rendered
in decimal), then copy every entry of every caller map over it. -/

def ApplyDefaultLabels (now : Int) (input : List LabelMap) : LabelMap :=
  applyAll (mapSet (mapSet [] ProviderLabel Provider) GeneratedDateTime (toString now))
    input

/-- The value the caller's maps bind a key to, later maps overriding
earlier ones (the binding that survives `labels[k] = v` in source order). -/

def callerLookup (input : List LabelMap) (k : String) : Option String :=
  (input.flatten.reverse.find? (fun p => p.1 == k)).map (·.2)

/-- First-some choice, used to state lookup characterizations. -/

def orElseO {α : Type} (a b : Option α) : Option α :=
  match a with
  | some x => some x
  | none => b

/-! ## Port formatting — `FirewallPort.String`, `apis/cloud/v1alpha1/firewall_types.go` -/

structure FirewallPort where
  all : Bool
  start : Option Nat
  «end» : Option Nat
deriving DecidableEq

/-- `FirewallPort.String`: the `Option FirewallPort` argument is the Go
receiver, `none` modelling a nil receiver (ports are validated positive,
so `Nat` with decimal rendering `Nat.repr` matches `strconv.Itoa`). -/

def FirewallPortGoString (f : Option FirewallPort) : String :=
  match f with
  | none => "any"
  | some f =>
    if f.all then "any"
    else
      match f.start with
      | none => ""
      | some s =>
        match f.«end» with
        | none => Nat.repr s
        | some e => if s ≠ e then Nat.repr s ++ "-" ++ Nat.repr e else Nat.repr s

/-! ## Action Awaiter — `Client.WaitForActionCompletion`, `pkg/hcloud/hcloud.go`

Time is discretised: each `time.Sleep(time.Second)` advances elapsed time
by exactly one second, polls are instantaneous.  `statuses t` is what the
provider's `Action.GetByID` reports at the poll taken `t` seconds after
the start.  The loop is driven by explicit fuel; `fuelExhausted` is a
marker the source has no counterpart for, and `awaitGo_ne_fuelExhausted`
shows it is unreachable from the entry point, i.e. the loop terminates
through one of the source's own exits. -/

inductive PollStatus
  | running
  | success
  | failure (code msg : String)
  | transportErr (msg : String)
deriving DecidableEq

inductive AwaitResult
  | ok
  | actionError (code msg : String)
  | transport (msg : String)
  | timedOut
  | fuelExhausted
deriving DecidableEq

/-- The `for { time.Sleep(time.Second); ... }` loop.  `i` is the elapsed
seconds before the iteration's sleep; the pair returned is the result and
the elapsed seconds at return.  Iteration order mirrors the source:
timeout check first, then the poll, error status before success. -/

def awaitGo (statuses : Nat → PollStatus) (timeoutSec : Nat) :
    Nat → Nat → AwaitResult × Nat
  | _, 0 => (.fuelExhausted, 0)
  | i, fuel + 1 =>
    if timeoutSec < i + 1 then (.timedOut, i + 1)
    else
      match statuses (i + 1) with
      | .transportErr m => (.transport m, i + 1)
      | .failure c m => (.actionError c m, i + 1)
      | .success => (.ok, i + 1)
      | .running => awaitGo statuses timeoutSec (i + 1) fuel

/-- `time.Minute`, the default of the variadic `timeout` parameter. -/

def defaultAwaitTimeout : Nat := 60

/-- `WaitForActionCompletion`: `hasAction = false` models a nil `action`
argument, `timeout = none` an absent variadic timeout. -/

def WaitForActionCompletion (statuses : Nat → PollStatus) (hasAction : Bool)
    (timeout : Option Nat) : AwaitResult × Nat :=
  if hasAction then
    let t := timeout.getD defaultAwaitTimeout
    awaitGo statuses t 0 (t + 1)
  else (.ok, 0)

/-! ## Volume — `apis/cloud/v1alpha1/volume_types.go`,
`internal/controller/volume/volume.go`

Field-by-field image of `VolumeParameters`.  `serverID` is a `GoPtr`
because the source compares it by pointer (`current.ServerID !=
target.ServerID`) and dereferences it in `Delete`. -/

structure VolumeParameters where
  size : Int
  automount : Bool
  format : String
  labels : LabelMap
  location : Option String
  serverID : GoPtr Int
deriving DecidableEq

/-- `Status.AtProvider` of a Volume: the provider ID and the recorded
`lastApplied` parameters (`none` = the embedded pointer is nil). -/

structure VolumeObservation where
  id : Int
  params : Option VolumeParameters
deriving DecidableEq

/-- `Volume.IsUpToDate`, checks in source order: labels by
`reflect.DeepEqual`, attached server by pointer comparison, then size —
only `current.Size < target.Size` (a grow) counts as drift. -/

def volumeIsUpToDate (target : VolumeParameters)
    (current? : Option VolumeParameters) : Bool :=
  match current? with
  | none => false
  | some current =>
    if !(mapDeepEqual target.labels current.labels) then false
    else if !(ptrEq current.serverID target.serverID) then false
    else if current.size < target.size then false
    else true

/-- Provider calls of the Volume controller. -/

inductive VolCall
  | getVolume (id : Int)
  | updateLabels (labels : LabelMap)
  | detach
  | attach (serverID : Int) (automount : Bool)
  | resize (size : Int)
  | awaitAction
  | deleteVolume (id : Int)
deriving DecidableEq

/-- `external.updateServerAttachment`: detach when the observed volume has
a server, then attach to each parameter set carrying a server ID, each
async call followed by its await. -/

def volumeUpdateServerAttachment (volumeServer : Option Int)
    (params : List VolumeParameters) : List VolCall :=
  (match volumeServer with
   | some _ => [.detach, .awaitAction]
   | none => []) ++
  params.flatMap (fun p =>
    match p.serverID with
    | some (_, sid) => [.attach sid p.automount, .awaitAction]
    | none => [])

/-- `external.Update` on the all-calls-accepted path: the provider calls
it issues, and the `lastApplied` parameters it records at the end
(`Labels`, `ServerID` and `Size` overwritten with the desired values).
`volumeServer` is the server of the volume as observed at the provider,
`cur` the recorded `lastApplied`, `target` the desired spec. -/

def volumeUpdate (now : Int) (id : Int) (volumeServer : Option Int)
    (cur target : VolumeParameters) : List VolCall × VolumeParameters :=
  ([VolCall.getVolume id,
    VolCall.updateLabels (ApplyDefaultLabels now [target.labels])]
    ++ (if !(ptrEq cur.serverID target.serverID) then
          volumeUpdateServerAttachment volumeServer [target]
        else [])
    ++ (if cur.size < target.size then
          [VolCall.resize target.size, VolCall.awaitAction]
        else []),
   { cur with labels := target.labels, serverID := target.serverID,
              size := target.size })

/-- `external.Delete`: the detach request is built from
`*cr.Status.AtProvider.VolumeParameters.ServerID` with no nil checks, so
the operation is a nil-pointer dereference — `none` here — whenever the
recorded parameters or their server ID are absent. -/

def volumeDelete (st : VolumeObservation) : Option (List VolCall) :=
  match st.params with
  | none => none
  | some p =>
    match p.serverID with
    | none => none
    | some _ =>
      some ([VolCall.detach, VolCall.awaitAction] ++ [VolCall.deleteVolume st.id])

/-! ## Firewall — `apis/cloud/v1alpha1/firewall_types.go`,
`internal/controller/firewall/firewall.go` -/

inductive FirewallRuleDirection
  | inbound
  | outbound
deriving DecidableEq

inductive FirewallRuleProtocol
  | tcp
  | udp
  | icmp
  | esp
  | gre
deriving DecidableEq

/-- `net.IPNet` for IPv4: the masked 32-bit network address and the
prefix length. -/

structure IPNet where
  addr : Nat
  maskBits : Nat
deriving DecidableEq

/-- `FirewallRules`, the caller-facing rule shape. -/

structure FirewallRules where
  direction : FirewallRuleDirection
  protocol : FirewallRuleProtocol
  targetIPs : List String
  description : Option String
  port : Option FirewallPort
deriving DecidableEq

/-- `hcloud.FirewallRule`, the provider request shape. -/

structure FirewallRule where
  description : Option String
  direction : FirewallRuleDirection
  protocol : FirewallRuleProtocol
  port : Option String
  sourceIPs : List IPNet
  destinationIPs : List IPNet
deriving DecidableEq

/-- The CIDR-parsing loop of `ToFirewallRule`: first failure wins
(`errors.Wrap(err, "error parsing firewall cidr")`). -/

def parseCIDRs (parse : String → Option IPNet) : List String → Except String (List IPNet)
  | [] => .ok []
  | ip :: rest =>
    match parse ip with
    | none => .error "error parsing firewall cidr"
    | some n => (parseCIDRs parse rest).map (fun l => n :: l)

/-- `FirewallRules.ToFirewallRule`.  `net.ParseCIDR` is Go standard
library, abstracted as the `parse` argument; `parseCIDRv4` below is a
concrete instance.  A TCP or UDP rule carries the formatted port; the
direction decides which address list receives the parsed CIDRs. -/

def ToFirewallRule (parse : String → Option IPNet) (f : FirewallRules) :
    Except String FirewallRule :=
  match parseCIDRs parse f.targetIPs with
  | .error e => .error e
  | .ok targetIPs =>
    .ok { description := f.description
          direction := f.direction
          protocol := f.protocol
          port := if f.protocol = .tcp ∨ f.protocol = .udp
                  then some (FirewallPortGoString f.port) else none
          sourceIPs := match f.direction with
                       | .inbound => targetIPs
                       | .outbound => []
          destinationIPs := match f.direction with
                            | .inbound => []
                            | .outbound => targetIPs }

/-- Split a character list on a separator. -/

def splitOnChar (sep : Char) : List Char → List (List Char)
  | [] => [[]]
  | c :: rest =>
    let r := splitOnChar sep rest
    if c = sep then [] :: r
    else
      match r with
      | [] => [[c]]
      | h :: t => (c :: h) :: t

/-- Decimal digits of an IPv4 octet or prefix length. -/

def parseOctet (s : List Char) : Option Nat :=
  if s.length = 0 ∨ 3 < s.length then none
  else if s.all (·.isDigit) then
    let n := s.foldl (fun acc c => acc * 10 + (c.toNat - 48)) 0
    if n ≤ 255 then some n else none
  else none

/-- A concrete IPv4 `net.ParseCIDR`: dotted quad, slash, prefix length;
the returned network address is masked to the prefix. -/

def parseCIDRv4 (s : String) : Option IPNet :=
  match splitOnChar '/' s.toList with
  | [ip, pre] =>
    match (splitOnChar '.' ip).mapM parseOctet with
    | some [a, b, c, d] =>
      match parseOctet pre with
      | some n =>
        if n ≤ 32 then
          some ⟨(((a * 256 + b) * 256 + c) * 256 + d) / 2 ^ (32 - n) * 2 ^ (32 - n), n⟩
        else none
      | none => none
    | _ => none
  | _ => none

/-- `external.getFirewallRules`: convert each rule, first failure wins. -/

def getFirewallRules (parse : String → Option IPNet) :
    List FirewallRules → Except String (List FirewallRule)
  | [] => .ok []
  | rule :: rest =>
    match ToFirewallRule parse rule with
    | .error e => .error e
    | .ok r => (getFirewallRules parse rest).map (fun l => r :: l)

/-- `FirewallApplyTo` (pointer fields only ever read through
`reflect.DeepEqual`, hence plain options). -/

structure FirewallApplyTo where
  type : String
  serverID : Option Int
  labels : Option LabelMap
deriving DecidableEq

/-- `FirewallParameters`. -/

structure FirewallParameters where
  applyTo : List FirewallApplyTo
  labels : LabelMap
  rules : List FirewallRules
deriving DecidableEq

/-- `Firewall.IsUpToDate`: nil recorded parameters force drift, then
apply-to set, labels and rule set by deep equality. -/

def firewallIsUpToDate (target : FirewallParameters)
    (current? : Option FirewallParameters) : Bool :=
  match current? with
  | none => false
  | some current =>
    if target.applyTo ≠ current.applyTo then false
    else if !(mapDeepEqual target.labels current.labels) then false
    else if target.rules ≠ current.rules then false
    else true

/-- Provider calls of the Firewall controller. -/

inductive FWCall
  | getFirewall (id : Int)
  | updateLabels (labels : LabelMap)
  | removeResources (applied : List FirewallApplyTo)
  | applyResources (applyTo : List FirewallApplyTo)
  | setRules (rules : List FirewallRule)
  | awaitAction
deriving DecidableEq

/-- `external.Update` of a Firewall on the accepted path: convert the
desired rules (failure aborts before any provider call), then
unconditionally update labels, remove every currently applied binding,
reapply the full desired set, set the full desired rule list — each
bulk call awaiting its returned actions — and record the desired
parameters (`target.DeepCopy()`) as `lastApplied`. -/

def firewallUpdate (parse : String → Option IPNet) (now : Int) (id : Int)
    (observedApplied : List FirewallApplyTo) (target : FirewallParameters) :
    Except String (List FWCall × FirewallParameters) :=
  match getFirewallRules parse target.rules with
  | .error e => .error e
  | .ok rules =>
    .ok ([FWCall.getFirewall id,
          FWCall.updateLabels (ApplyDefaultLabels now [target.labels]),
          FWCall.removeResources observedApplied, FWCall.awaitAction,
          FWCall.applyResources target.applyTo, FWCall.awaitAction,
          FWCall.setRules rules, FWCall.awaitAction],
         target)

/-! ## LoadBalancer — `apis/cloud/v1alpha1/server_types.go` (LoadBalancer
section), `internal/controller/loadbalancer/loadbalancer.go`

Durations (`hcloud.Duration`) are carried as elapsed nanoseconds.
Pointer-typed fields that the source only reads through
`reflect.DeepEqual` or dereference are plain options; `networkID` is a
`GoPtr` because the Update gate and `IsUpToDate` compare it by pointer. -/

structure LoadBalancerHealthCheckHTTP where
  path : Option String
  domain : Option String
  response : Option String
  statusCodes : List String
  tls : Option Bool
deriving DecidableEq

structure LoadBalancerHealthCheck where
  protocol : String
  port : Option Int
  interval : Option Int
  timeout : Option Int
  retries : Option Int
  http : Option LoadBalancerHealthCheckHTTP
deriving DecidableEq

structure LoadBalancerHTTPConfig where
  certificateIDs : List Int
  cookieName : Option String
  cookieLifetime : Option Int
  redirectHTTP : Option Bool
  stickySessions : Option Bool
deriving DecidableEq

structure LoadBalancerService where
  destinationPort : Int
  healthCheck : LoadBalancerHealthCheck
  listenPort : Int
  protocol : String
  proxyProtocol : Bool
  http : Option LoadBalancerHTTPConfig
deriving DecidableEq

structure LoadBalancerTarget where
  type : String
  labels : Option LabelMap
  serverID : Option Int
  ip : Option String
  usePrivateIP : Bool
deriving DecidableEq

structure LoadBalancerParameters where
  type : String
  algorithm : String
  labels : LabelMap
  location : Option String
  networkZone : String
  networkID : GoPtr Int
  publicInterface : Bool
  services : List LoadBalancerService
  targets : List LoadBalancerTarget
deriving DecidableEq

/-- `LoadBalancer.IsUpToDate`, checks in source order. -/

def loadBalancerIsUpToDate (target : LoadBalancerParameters)
    (current? : Option LoadBalancerParameters) : Bool :=
  match current? with
  | none => false
  | some current =>
    if !(mapDeepEqual target.labels current.labels) then false
    else if target.type ≠ current.type then false
    else if target.publicInterface ≠ current.publicInterface then false
    else if target.algorithm ≠ current.algorithm then false
    else if !(ptrEq target.networkID current.networkID) then false
    else if target.services ≠ current.services then false
    else if target.targets ≠ current.targets then false
    else true

/-- The load balancer as observed at the provider by the Update pass:
its ID, the networks in `PrivateNet`, and the listen ports of its
current `Services`. -/

structure ObservedLoadBalancer where
  id : Int
  privateNetIDs : List Int
  serviceListenPorts : List Int
deriving DecidableEq

/-- Provider calls of the LoadBalancer controller.  `addTarget` and
`removeTarget` are the SDK's target mutations; the controller never
emits them. -/

inductive LBCall
  | getLoadBalancer (id : Int)
  | updateLabels (labels : LabelMap)
  | changeType (type : String)
  | enablePublicInterface
  | disablePublicInterface
  | changeAlgorithm (algorithm : String)
  | detachFromNetwork (networkID : Int)
  | attachToNetwork (networkID : Int)
  | deleteService (listenPort : Int)
  | addService (service : LoadBalancerService)
  | addTarget (target : LoadBalancerTarget)
  | removeTarget (target : LoadBalancerTarget)
  | awaitAction
deriving DecidableEq

/-- Does a call mutate the load balancer's target set? -/

def LBCall.touchesTargets : LBCall → Bool
  | .addTarget _ => true
  | .removeTarget _ => true
  | _ => false

/-- `external.updateType`. -/

def lbUpdateType (target : LoadBalancerParameters) : List LBCall :=
  [.changeType target.type, .awaitAction]

/-- `external.updatePublicInterface`. -/

def lbUpdatePublicInterface (target : LoadBalancerParameters) : List LBCall :=
  if target.publicInterface then [.enablePublicInterface, .awaitAction]
  else [.disablePublicInterface, .awaitAction]

/-- `external.changeAlgorithm`. -/

def lbChangeAlgorithm (target : LoadBalancerParameters) : List LBCall :=
  [.changeAlgorithm target.algorithm, .awaitAction]

/-- `external.changeNetwork`: detach from every currently attached
network, then attach to the desired one when set, each call awaited. -/

def lbChangeNetwork (obs : ObservedLoadBalancer)
    (target : LoadBalancerParameters) : List LBCall :=
  obs.privateNetIDs.flatMap (fun n => [.detachFromNetwork n, .awaitAction])
  ++ (match target.networkID with
      | none => []
      | some (_, nid) => [.attachToNetwork nid, .awaitAction])

/-- `external.updateServices`: delete every existing service by listen
port, then add every desired service, each call awaited. -/

def lbUpdateServices (obs : ObservedLoadBalancer)
    (target : LoadBalancerParameters) : List LBCall :=
  obs.serviceListenPorts.flatMap (fun p => [.deleteService p, .awaitAction])
  ++ target.services.flatMap (fun s => [.addService s, .awaitAction])

/-- `external.updateTargets`: the source body is `return nil` — no
provider call is issued. -/

def lbUpdateTargets (obs : ObservedLoadBalancer)
    (target : LoadBalancerParameters) : List LBCall :=
  []

/-- `external.Update` of a LoadBalancer on the accepted path: fetch,
unconditional label update, then each sub-operation gated by its own
field comparison against the recorded `lastApplied` (`cur`), and finally
record the full desired parameters as `lastApplied`. -/

def loadBalancerUpdate (now : Int) (obs : ObservedLoadBalancer)
    (cur target : LoadBalancerParameters) :
    List LBCall × LoadBalancerParameters :=
  ([LBCall.getLoadBalancer obs.id,
    LBCall.updateLabels (ApplyDefaultLabels now [target.labels])]
   ++ (if target.type ≠ cur.type then lbUpdateType target else [])
   ++ (if target.publicInterface ≠ cur.publicInterface
       then lbUpdatePublicInterface target else [])
   ++ (if target.algorithm ≠ cur.algorithm then lbChangeAlgorithm target else [])
   ++ (if !(ptrEq target.networkID cur.networkID)
       then lbChangeNetwork obs target else [])
   ++ (if target.services ≠ cur.services then lbUpdateServices obs target else [])
   ++ (if target.targets ≠ cur.targets then lbUpdateTargets obs target else []),
   target)

/-! ## Network — `internal/controller/network/network.go`

The `NetworkParameters` declaration file is not among the sources; the
fields below are the ones the controller reads (`IPRange`, `Subnets`,
`Routes`, `Labels`, `ExposeRoutesToVSwitch`).  CIDR strings are carried
verbatim: the Update path parses them only inside the change-IP-range
sub-operation, on the accepted path modelled here the parse succeeds. -/

structure NetworkSubnet where
  type : String
  ipRange : String
  networkZone : String
  vSwitchID : Int
deriving DecidableEq

structure NetworkRoute where
  destination : String
  gateway : String
deriving DecidableEq

structure NetworkParameters where
  ipRange : String
  subnets : List NetworkSubnet
  routes : List NetworkRoute
  labels : LabelMap
  exposeRoutesToVSwitch : Bool
deriving DecidableEq

/-- Provider calls of the Network controller. -/

inductive NetCall
  | getNetwork (id : Int)
  | updateNetwork (exposeRoutesToVSwitch : Bool) (labels : LabelMap)
  | changeIPRange (ipRange : String)
  | awaitAction
deriving DecidableEq

/-- `external.Update` of a Network on the accepted path: fetch,
unconditional metadata update, change-IP-range (awaited) when the range
differs from the recorded one, then record the desired parameters with
`Routes` and `Subnets` copied forward from the previous record
(`@todo(sje): allow updating of routes/subnets`). -/

def networkUpdate (now : Int) (id : Int) (cur target : NetworkParameters) :
    List NetCall × NetworkParameters :=
  ([NetCall.getNetwork id,
    NetCall.updateNetwork target.exposeRoutesToVSwitch
      (ApplyDefaultLabels now [target.labels])]
   ++ (if target.ipRange ≠ cur.ipRange
       then [NetCall.changeIPRange target.ipRange, NetCall.awaitAction] else []),
   { target with routes := cur.routes, subnets := cur.subnets })

/-- Modelled from the spec: `Network.IsUpToDate` is code of this
repository whose declaration file is absent from the sources.  Per §4.4
the Network drift detector compares labels while treating the
route/subnet set as unchanged ("route/subnet edits are accepted as
no-ops"), and per §3 unmanaged fields are copied forward "to avoid
perpetual drift", so differences in the unmanaged route/subnet
substructures are not flagged: absent recorded parameters force drift,
otherwise only the labels are compared. -/

def networkIsUpToDate (target : NetworkParameters)
    (current? : Option NetworkParameters) : Bool :=
  match current? with
  | none => false
  | some current => mapDeepEqual target.labels current.labels

/-! ## Server — `apis/cloud/v1alpha1/server_types.go`,
`internal/controller/server/server.go` -/

structure ServerParameters where
  image : String
  serverType : String
  datacenter : Option String
  location : Option String
  architecture : String
  autoMount : Bool
  enableIPv4 : Bool
  enableIPv6 : Bool
  firewallIDs : List Int
  labels : LabelMap
  networkIDs : List Int
  placementGroupID : Option Int
  powerOn : Bool
  sshKeys : List String
  startAfterCreate : Bool
  userData : String
  volumeIDs : List Int
deriving DecidableEq

/-- `Status.AtProvider` of a Server. -/

structure ServerObservation where
  id : Int
  params : Option ServerParameters
deriving DecidableEq

/-- `Server.IsUpToDate`: labels by deep equality, then the power-on
flag. -/

def serverIsUpToDate (target : ServerParameters)
    (current? : Option ServerParameters) : Bool :=
  match current? with
  | none => false
  | some current =>
    if !(mapDeepEqual target.labels current.labels) then false
    else if target.powerOn ≠ current.powerOn then false
    else true

/-- Provider calls of the Server controller's Update. -/

inductive SrvCall
  | getServer (id : Int)
  | updateLabels (labels : LabelMap)
  | powerOn
  | powerOff
  | awaitAction
deriving DecidableEq

/-- `external.Update` of a Server on the accepted path. -/

def serverUpdate (now : Int) (id : Int) (cur target : ServerParameters) :
    List SrvCall × ServerParameters :=
  ([SrvCall.getServer id,
    SrvCall.updateLabels (ApplyDefaultLabels now [target.labels])]
   ++ (if cur.powerOn ≠ target.powerOn then
        [(if target.powerOn then SrvCall.powerOn else SrvCall.powerOff),
         SrvCall.awaitAction]
       else []),
   { cur with labels := target.labels, powerOn := target.powerOn })

/-! ## PlacementGroup — `apis/cloud/v1alpha1/placementgroup_types.go`,
placement group controller -/

structure PlacementGroupParameters where
  type : String
  labels : LabelMap
deriving DecidableEq

/-- `PlacementGroup.IsUpToDate`: labels only. -/

def placementGroupIsUpToDate (target : PlacementGroupParameters)
    (current? : Option PlacementGroupParameters) : Bool :=
  match current? with
  | none => false
  | some current => mapDeepEqual target.labels current.labels

/-- Provider calls of the PlacementGroup controller's Update. -/

inductive PGCall
  | getPlacementGroup (id : Int)
  | updateLabels (labels : LabelMap)
deriving DecidableEq

/-- `external.Update` of a PlacementGroup on the accepted path: fetch,
label update, record the desired labels. -/

def placementGroupUpdate (now : Int) (id : Int)
    (cur target : PlacementGroupParameters) :
    List PGCall × PlacementGroupParameters :=
  ([PGCall.getPlacementGroup id,
    PGCall.updateLabels (ApplyDefaultLabels now [target.labels])],
   { cur with labels := target.labels })

/-! ## Server Create — reference resolution before the mutating call -/

/-- Outcome of one provider lookup: a transport error, a `nil` result
("not found" is not an error for `Get` calls), or the resource. -/

inductive LookupResult
  | transportErr (msg : String)
  | notFound
  | found (id : Int)
deriving DecidableEq

/-- The provider responses the Server Create pass can observe. -/

structure ServerEnv where
  datacenterByName : String → LookupResult
  locationByName : String → LookupResult
  firewallByID : Int → LookupResult
  imageByName : String → String → LookupResult
  networkByID : Int → LookupResult
  placementGroupByID : Int → LookupResult
  serverTypeByName : String → LookupResult
  volumeByID : Int → LookupResult
  sshKeyUpsert : String → Except String Int
  createServer : Except String Int

/-- `Client.GetDatacenterOrLocation` (from the `pkg/hcloud` client):
datacenter name wins, then location, then a hard error when neither is
set; a transport error is wrapped, a nil result is its own error. -/

def getDatacenterOrLocation (env : ServerEnv)
    (datacenter location : Option String) :
    Except String (Option Int × Option Int) :=
  match datacenter with
  | some d =>
    match env.datacenterByName d with
    | .transportErr m => .error ("failed to get datacenter: " ++ m)
    | .notFound => .error "unknown datacenter"
    | .found id => .ok (some id, none)
  | none =>
    match location with
    | some l =>
      match env.locationByName l with
      | .transportErr m => .error ("failed to get location: " ++ m)
      | .notFound => .error "unknown location"
      | .found id => .ok (none, some id)
    | none => .error "datacenter and location not set"

/-- The shared loop shape of `getFirewalls` / `getNetworks` /
`getVolumes`: resolve every ID, first failure (transport error or nil
result) wins. -/

def resolveRefs (lookup : Int → LookupResult) (notFoundMsg : String) :
    List Int → Except String (List Int)
  | [] => .ok []
  | id :: rest =>
    match lookup id with
    | .transportErr m => .error m
    | .notFound => .error notFoundMsg
    | .found rid => (resolveRefs lookup notFoundMsg rest).map (fun l => rid :: l)

/-- Mutating provider calls of the Server Create pass (`sshUpsert` may
create an SSH key; lookups are read-only and not traced). -/

inductive SCall
  | sshUpsert (key : String)
  | createServer
deriving DecidableEq

/-- `Client.UpsertSSHKeys`: upsert each key in order, stopping at the
first failure; returns the calls made and the overall outcome. -/

def upsertKeys (env : ServerEnv) : List String → List SCall × Except String Unit
  | [] => ([], .ok ())
  | k :: rest =>
    match env.sshKeyUpsert k with
    | .error e => ([SCall.sshUpsert k], .error e)
    | .ok _ =>
      let r := upsertKeys env rest
      (SCall.sshUpsert k :: r.1, r.2)

/-- Result of a Server Create pass: the recorded state afterwards, the
mutating calls made, and the error if any. -/

structure ServerCreateResult where
  state : ServerObservation
  trace : List SCall
  err : Option String
deriving DecidableEq

/-- `external.Create` of a Server: every cross-reference is resolved, in
source order, before the mutating `Server.Create` call; any resolution
failure returns an error with the recorded state untouched.  Only after
the provider confirms creation are the ID and `lastApplied` written. -/

def serverCreate (env : ServerEnv) (spec : ServerParameters)
    (st : ServerObservation) : ServerCreateResult :=
  match getDatacenterOrLocation env spec.datacenter spec.location with
  | .error e => ⟨st, [], some ("failed to get datacenter or location: " ++ e)⟩
  | .ok _ =>
  match resolveRefs env.firewallByID "unknown firewall" spec.firewallIDs with
  | .error e => ⟨st, [], some e⟩
  | .ok _ =>
  match env.imageByName spec.image spec.architecture with
  | .transportErr m => ⟨st, [], some ("failed to get image: " ++ m)⟩
  | .notFound => ⟨st, [], some "unknown image"⟩
  | .found _ =>
  match resolveRefs env.networkByID "unknown network" spec.networkIDs with
  | .error e => ⟨st, [], some e⟩
  | .ok _ =>
  match (match spec.placementGroupID with
         | none => Except.ok ()
         | some pid =>
           match env.placementGroupByID pid with
           | .transportErr m => .error ("failed to query placement group: " ++ m)
           | .notFound => .error "no placement group found"
           | .found _ => .ok ()) with
  | .error e => ⟨st, [], some e⟩
  | .ok _ =>
  match env.serverTypeByName spec.serverType with
  | .transportErr m => ⟨st, [], some ("failed to get server type: " ++ m)⟩
  | .notFound => ⟨st, [], some "unknown server type"⟩
  | .found _ =>
  match resolveRefs env.volumeByID "unknown volume" spec.volumeIDs with
  | .error e => ⟨st, [], some e⟩
  | .ok _ =>
  match upsertKeys env spec.sshKeys with
  | (trK, .error e) => ⟨st, trK, some ("failed to upsert ssh key: " ++ e)⟩
  | (trK, .ok _) =>
    match env.createServer with
    | .error e => ⟨st, trK ++ [SCall.createServer], some ("failed to create server: " ++ e)⟩
    | .ok newId => ⟨⟨newId, some spec⟩, trK ++ [SCall.createServer], none⟩

/-- Is an `Except` an error? -/

def isErr {α : Type} : Except String α → Bool
  | .error _ => true
  | .ok _ => false

/-- One of the Server Create pass's reference resolutions fails: a
lookup errors, a mandatory lookup finds nothing, or an SSH key upsert
fails. -/

def anyServerRefFails (env : ServerEnv) (spec : ServerParameters) : Bool :=
  isErr (getDatacenterOrLocation env spec.datacenter spec.location)
  || isErr (resolveRefs env.firewallByID "unknown firewall" spec.firewallIDs)
  || (match env.imageByName spec.image spec.architecture with
      | .found _ => false
      | _ => true)
  || isErr (resolveRefs env.networkByID "unknown network" spec.networkIDs)
  || (match spec.placementGroupID with
      | none => false
      | some pid =>
        match env.placementGroupByID pid with
        | .found _ => false
        | _ => true)
  || (match env.serverTypeByName spec.serverType with
      | .found _ => false
      | _ => true)
  || isErr (resolveRefs env.volumeByID "unknown volume" spec.volumeIDs)
  || isErr (upsertKeys env spec.sshKeys).2

/-- A provider in which every lookup succeeds except the image lookup,
which reports "not found". -/

def serverEnvNoImage : ServerEnv where
  datacenterByName := fun _ => .found 1
  locationByName := fun _ => .found 2
  firewallByID := fun _ => .found 3
  imageByName := fun _ _ => .notFound
  networkByID := fun _ => .found 4
  placementGroupByID := fun _ => .found 5
  serverTypeByName := fun _ => .found 6
  volumeByID := fun _ => .found 7
  sshKeyUpsert := fun _ => .ok 8
  createServer := .ok 99

/-- A small concrete server spec. -/

def serverSpecExample : ServerParameters :=
  ⟨"ubuntu-24.04", "cx11", none, some "fsn1", "x86", false, true, true,
   [], [], [], none, true, [], true, "", []⟩

theorem mapGet_cons (p : String × String) (m : LabelMap) (k : String) :
    mapGet (p :: m) k = if p.1 = k then some p.2 else mapGet m k := by
  by_cases h : p.1 = k
  · have hb : (p.1 == k) = true := by simp [h]
    simp [mapGet, List.find?, hb, h]
  · have hb : (p.1 == k) = false := by simp [h]
    simp [mapGet, List.find?, hb, h]

theorem mapGet_mapSet (m : LabelMap) (k v k' : String) :
    mapGet (mapSet m k v) k' = if k' = k then some v else mapGet m k' := by
  induction m with
  | nil =>
    by_cases h : k' = k
    · subst h; simp [mapSet, mapGet]
    · simp only [mapSet, List.filter_nil, List.nil_append, if_neg h]
      rw [show ([(k, v)] : LabelMap) = (k, v) :: [] from rfl, mapGet_cons]
      have : k ≠ k' := fun e => h e.symm
      simp [mapGet, this]
  | cons p m ih =>
    by_cases hp : p.1 = k
    · have hfilter : (p.1 != k) = false := by simp [hp]
      have e1 : mapSet (p :: m) k v = mapSet m k v := by
        simp [mapSet, List.filter_cons, hfilter]
      rw [e1, ih, mapGet_cons]
      by_cases h : k' = k
      · simp [h]
      · have : p.1 ≠ k' := fun e => h (by rw [← e, hp])
        simp [h, this]
    · have hfilter : (p.1 != k) = true := by simp [hp]
      have e1 : mapSet (p :: m) k v = p :: mapSet m k v := by
        simp [mapSet, List.filter_cons, hfilter]
      rw [e1, mapGet_cons, ih, mapGet_cons]
      by_cases h' : p.1 = k'
      · have : k' ≠ k := fun e => hp (h' ▸ e)
        simp [h', this]
      · simp [h']

theorem mapDeepEqual_refl (a : LabelMap) : mapDeepEqual a a = true := by
  simp [mapDeepEqual]

theorem ptrEq_refl {α : Type} (a : GoPtr α) : ptrEq a a = true := by
  cases a with
  | none => rfl
  | some p => simp [ptrEq]

@[simp] theorem orElseO_some {α : Type} (x : α) (b : Option α) :
    orElseO (some x) b = some x := rfl

@[simp] theorem orElseO_none {α : Type} (b : Option α) :
    orElseO none b = b := rfl

theorem find?_append {α : Type} (p : α → Bool) (a b : List α) :
    (a ++ b).find? p = orElseO (a.find? p) (b.find? p) := by
  induction a with
  | nil => simp
  | cons x a ih =>
    by_cases h : p x = true
    · simp [List.find?, h]
    · have h' : p x = false := by simp [h]
      simp [List.find?, h', ih]

theorem map_orElseO {α β : Type} (f : α → β) (a b : Option α) :
    (orElseO a b).map f = orElseO (a.map f) (b.map f) := by
  rcases a with _ | x <;> simp

theorem mapGet_applyOne (i : LabelMap) (base : LabelMap) (k : String) :
    mapGet (applyOne base i) k =
      orElseO ((i.reverse.find? (fun p => p.1 == k)).map (·.2))
        (mapGet base k) := by
  induction i generalizing base with
  | nil => simp [applyOne]
  | cons p rest ih =>
    have e1 : applyOne base (p :: rest) = applyOne (mapSet base p.1 p.2) rest := rfl
    rw [e1, ih, List.reverse_cons, find?_append]
    rcases hfind : rest.reverse.find? (fun q => q.1 == k) with _ | q
    · rw [hfind, mapGet_mapSet]
      by_cases h : p.1 = k
      · have hb : (p.1 == k) = true := by simp [h]
        have h2 : k = p.1 := h.symm
        simp [List.find?, hb, if_pos h2]
      · have hb : (p.1 == k) = false := by simp [h]
        have h' : ¬ k = p.1 := fun e => h e.symm
        simp [List.find?, hb, if_neg h']
    · rw [hfind]
      simp

theorem mapGet_applyAll (input : List LabelMap) (base : LabelMap) (k : String) :
    mapGet (applyAll base input) k =
      orElseO (callerLookup input k) (mapGet base k) := by
  induction input generalizing base with
  | nil => simp [applyAll, callerLookup]
  | cons i rest ih =>
    have e1 : applyAll base (i :: rest) = applyAll (applyOne base i) rest := rfl
    rw [e1, ih, mapGet_applyOne]
    have e2 : callerLookup (i :: rest) k =
        orElseO (callerLookup rest k)
          ((i.reverse.find? (fun p => p.1 == k)).map (·.2)) := by
      simp only [callerLookup, List.flatten_cons, List.reverse_append, find?_append,
        map_orElseO]
    rw [e2]
    rcases callerLookup rest k with _ | v <;> simp

/-- C1 (amended): the merged map holds the caller's value for every
caller-supplied key — even a key named identically to a system key — and
the system values exactly for the two system keys the caller does not
supply; both system keys are always present. -/
theorem C1_merge_characterization (now : Int) (input : List LabelMap) :
    (∀ k, mapGet (ApplyDefaultLabels now input) k =
        orElseO (callerLookup input k)
          (if k = GeneratedDateTime then some (toString now)
           else if k = ProviderLabel then some Provider
           else none))
    ∧ (mapGet (ApplyDefaultLabels now input) ProviderLabel).isSome = true
    ∧ (mapGet (ApplyDefaultLabels now input) GeneratedDateTime).isSome = true := by
  have base : ∀ k, mapGet (mapSet (mapSet [] ProviderLabel Provider)
      GeneratedDateTime (toString now)) k =
      (if k = GeneratedDateTime then some (toString now)
       else if k = ProviderLabel then some Provider else none) := by
    intro k
    rw [mapGet_mapSet, mapGet_mapSet]
    by_cases h1 : k = GeneratedDateTime
    · simp [h1]
    · by_cases h2 : k = ProviderLabel <;> simp [h1, h2, mapGet]
  have main : ∀ k, mapGet (ApplyDefaultLabels now input) k =
      orElseO (callerLookup input k)
        (if k = GeneratedDateTime then some (toString now)
         else if k = ProviderLabel then some Provider
         else none) := by
    intro k
    rw [ApplyDefaultLabels, mapGet_applyAll, base]
  refine ⟨main, ?_, ?_⟩
  · rw [main ProviderLabel]
    rcases callerLookup input ProviderLabel with _ | v
    · have : ProviderLabel ≠ GeneratedDateTime := by decide
      simp [this]
    · simp
  · rw [main GeneratedDateTime]
    rcases callerLookup input GeneratedDateTime with _ | v
    · simp
    · simp

/-- C1 (counterexample): a caller-supplied entry named like the
provider-identity system key ends up in the merged map with the *caller's*
value, not the system value — the system entries do not take precedence. -/
theorem C1_caller_overrides_system_key :
    mapGet (ApplyDefaultLabels 0 [[(ProviderLabel, "caller-owned")]]) ProviderLabel
        = some "caller-owned"
    ∧ ("caller-owned" : String) ≠ Provider := by
  constructor
  · rfl
  · decide

/-- C8: port formatting emits exactly `"any"` for the all flag, the
decimal start for a lone start or an equal pair, and `"N-M"` for a
differing pair. -/
theorem C8_port_formatting :
    (∀ s e : Option Nat, FirewallPortGoString (some ⟨true, s, e⟩) = "any")
    ∧ (∀ n : Nat, FirewallPortGoString (some ⟨false, some n, none⟩) = Nat.repr n)
    ∧ (∀ n : Nat, FirewallPortGoString (some ⟨false, some n, some n⟩) = Nat.repr n)
    ∧ (∀ n m : Nat, n ≠ m →
        FirewallPortGoString (some ⟨false, some n, some m⟩)
          = Nat.repr n ++ "-" ++ Nat.repr m) := by
  refine ⟨fun s e => rfl, fun n => rfl, fun n => by simp [FirewallPortGoString],
    fun n m h => by simp [FirewallPortGoString, h]⟩

theorem awaitGo_ne_fuelExhausted (statuses : Nat → PollStatus) (T i fuel : Nat)
    (hle : i ≤ T) (hfuel : i + fuel = T + 1) :
    (awaitGo statuses T i fuel).1 ≠ .fuelExhausted := by
  induction fuel generalizing i with
  | zero => omega
  | succ fuel ih =>
    show (awaitGo statuses T i (fuel + 1)).1 ≠ .fuelExhausted
    rw [awaitGo]
    by_cases ht : T < i + 1
    · simp [ht]
    · rcases hst : statuses (i + 1) with _ | _ | ⟨c, m⟩ | m
      · simp only [if_neg ht, hst]
        exact ih (i + 1) (by omega) (by omega)
      · simp [ht, hst]
      · simp [ht, hst]
      · simp [ht, hst]

theorem awaitGo_run (statuses : Nat → PollStatus) (T i fuel k : Nat)
    (hik : i < k) (hkT : k ≤ T) (hfuel : i + fuel = T + 1)
    (hrun : ∀ t, i < t → t < k → statuses t = .running) :
    awaitGo statuses T i fuel = awaitGo statuses T (k - 1) (T + 2 - k) := by
  induction fuel generalizing i with
  | zero => omega
  | succ fuel ih =>
    by_cases hk : i + 1 = k
    · have : k - 1 = i := by omega
      rw [this]
      have : T + 2 - k = fuel + 1 := by omega
      rw [this]
    · have ht : ¬ T < i + 1 := by omega
      have hst : statuses (i + 1) = .running := hrun (i + 1) (by omega) (by omega)
      show awaitGo statuses T i (fuel + 1) = _
      rw [awaitGo]
      simp only [if_neg ht, hst]
      exact ih (i + 1) (by omega) (by omega)
        (fun t h1 h2 => hrun t (by omega) h2)

theorem awaitGo_timeout (statuses : Nat → PollStatus) (T i fuel : Nat)
    (hle : i ≤ T) (hfuel : i + fuel = T + 1)
    (hrun : ∀ t, i < t → t ≤ T → statuses t = .running) :
    awaitGo statuses T i fuel = (.timedOut, T + 1) := by
  induction fuel generalizing i with
  | zero => omega
  | succ fuel ih =>
    show awaitGo statuses T i (fuel + 1) = _
    rw [awaitGo]
    by_cases ht : T < i + 1
    · have : i = T := by omega
      simp [ht, this]
    · have hst : statuses (i + 1) = .running := hrun (i + 1) (by omega) (by omega)
      simp only [if_neg ht, hst]
      exact ih (i + 1) (by omega) (by omega)
        (fun t h1 h2 => hrun t (by omega) h2)

/-- C6 (amended): the awaiter terminates for every action handle and
status sequence.  A nil handle returns success immediately; the first
non-`running` poll inside the timeout window decides the outcome (an
`error` status returns an error carrying the provider's code and
message); and a never-resolving handle, polled once per 1-second
interval, times out at elapsed time `timeout + 1` second — strictly
greater than the timeout and exactly one poll interval beyond it, not
strictly less than `timeout + interval` as claimed. -/
theorem C6_awaiter_behaviour (statuses : Nat → PollStatus) (T : Nat) :
    (WaitForActionCompletion statuses false (some T) = (.ok, 0))
    ∧ (∀ k c m, 1 ≤ k → k ≤ T →
        (∀ t, 1 ≤ t → t < k → statuses t = .running) →
        statuses k = .failure c m →
        WaitForActionCompletion statuses true (some T) = (.actionError c m, k))
    ∧ (∀ k, 1 ≤ k → k ≤ T →
        (∀ t, 1 ≤ t → t < k → statuses t = .running) →
        statuses k = .success →
        WaitForActionCompletion statuses true (some T) = (.ok, k))
    ∧ ((∀ t, statuses t = .running) →
        WaitForActionCompletion statuses true (some T) = (.timedOut, T + 1))
    ∧ ((WaitForActionCompletion statuses true (some T)).1 ≠ .fuelExhausted)
    ∧ (WaitForActionCompletion statuses true none
        = awaitGo statuses defaultAwaitTimeout 0 (defaultAwaitTimeout + 1)) := by
  refine ⟨rfl, ?_, ?_, ?_, ?_, rfl⟩
  · intro k c m hk1 hkT hrun hk
    have step : awaitGo statuses T 0 (T + 1) = awaitGo statuses T (k - 1) (T + 2 - k) := by
      by_cases h0 : k = 1
      · subst h0; rfl
      · exact awaitGo_run statuses T 0 (T + 1) k (by omega) hkT (by omega)
          (fun t h1 h2 => hrun t (by omega) h2)
    have hfuel : T + 2 - k = (T + 1 - k) + 1 := by omega
    have hk' : (k - 1) + 1 = k := by omega
    rw [WaitForActionCompletion, if_pos rfl]
    simp only [Option.getD_some]
    rw [step, hfuel, awaitGo, hk']
    have ht : ¬ T < k := by omega
    simp only [if_neg ht, hk]
  · intro k hk1 hkT hrun hk
    have step : awaitGo statuses T 0 (T + 1) = awaitGo statuses T (k - 1) (T + 2 - k) := by
      by_cases h0 : k = 1
      · subst h0; rfl
      · exact awaitGo_run statuses T 0 (T + 1) k (by omega) hkT (by omega)
          (fun t h1 h2 => hrun t (by omega) h2)
    have hfuel : T + 2 - k = (T + 1 - k) + 1 := by omega
    have hk' : (k - 1) + 1 = k := by omega
    rw [WaitForActionCompletion, if_pos rfl]
    simp only [Option.getD_some]
    rw [step, hfuel, awaitGo, hk']
    have ht : ¬ T < k := by omega
    simp only [if_neg ht, hk]
  · intro hrun
    rw [WaitForActionCompletion, if_pos rfl]
    simp only [Option.getD_some]
    exact awaitGo_timeout statuses T 0 (T + 1) (by omega) (by omega)
      (fun t _ _ => hrun t)
  · rw [WaitForActionCompletion, if_pos rfl]
    simp only [Option.getD_some]
    exact awaitGo_ne_fuelExhausted statuses T 0 (T + 1) (by omega) (by omega)

/-- C6 witness: concrete runs of the awaiter — a nil handle, an error
status observed at the second poll, a success at the third, and a
never-resolving handle timing out at 61 seconds with a 60-second timeout. -/
theorem C6_awaiter_behaviour_witness :
    (WaitForActionCompletion (fun _ => .running) false (some 60) = (.ok, 0))
    ∧ (WaitForActionCompletion
        (fun t => if t = 2 then .failure "rate_limit" "limit reached" else .running)
        true (some 60) = (.actionError "rate_limit" "limit reached", 2))
    ∧ (WaitForActionCompletion
        (fun t => if 3 ≤ t then .success else .running) true (some 60) = (.ok, 3))
    ∧ (WaitForActionCompletion (fun _ => .running) true (some 60)
        = (.timedOut, 61)) := by
  refine ⟨(C6_awaiter_behaviour (fun _ => .running) 60).1, ?_, ?_, ?_⟩
  · exact (C6_awaiter_behaviour _ 60).2.1 2 "rate_limit" "limit reached"
      (by omega) (by omega)
      (fun t h1 h2 => by
        have : t = 1 := by omega
        subst this; rfl)
      rfl
  · exact (C6_awaiter_behaviour _ 60).2.2.1 3 (by omega) (by omega)
      (fun t h1 h2 => by
        have ht : ¬ 3 ≤ t := by omega
        simp [ht])
      (by simp)
  · exact (C6_awaiter_behaviour (fun _ => .running) 60).2.2.2.1 (fun _ => rfl)

/-- C6 (counterexample): with the default 60-second timeout and a handle
that never resolves, the awaiter returns its timeout error at elapsed
time 61 seconds, which is *not* strictly less than timeout plus one poll
interval (61): the sleep-then-check loop overshoots the claimed bound. -/
theorem C6_timeout_bound_counterexample :
    WaitForActionCompletion (fun _ => PollStatus.running) true none
      = (.timedOut, 61)
    ∧ ¬ (61 < defaultAwaitTimeout + 1) := by
  constructor
  · have h := awaitGo_timeout (fun _ => PollStatus.running) 60 0 61 (by omega)
      (by omega) (fun t _ _ => rfl)
    simpa [WaitForActionCompletion, defaultAwaitTimeout] using h
  · decide

/-- C8 witness: the spec's concrete examples, byte for byte. -/
theorem C8_port_formatting_witness :
    FirewallPortGoString (some ⟨true, none, none⟩) = "any"
    ∧ FirewallPortGoString (some ⟨false, some 80, none⟩) = "80"
    ∧ FirewallPortGoString (some ⟨false, some 80, some 80⟩) = "80"
    ∧ ((80 : Nat) ≠ 90
        ∧ FirewallPortGoString (some ⟨false, some 80, some 90⟩) = "80-90") :=
  ⟨C8_port_formatting.1 none none, by
      have h := C8_port_formatting.2.1 80
      simpa using h, by
      have h := C8_port_formatting.2.2.1 80
      simpa using h,
    by decide, by
      have h := C8_port_formatting.2.2.2 80 90 (by decide)
      simpa using h⟩

/-- C2 (counterexample): a desired size strictly below the recorded
lastApplied size, with every other compared field equal, is reported *up
to date* by the Volume drift detector — not "not-up-to-date" as the
claim states. -/
theorem C2_shrink_reported_up_to_date :
    (10 : Int) < 20
    ∧ volumeIsUpToDate
        ⟨10, false, "ext4", [], none, none⟩
        (some ⟨20, false, "ext4", [], none, none⟩) = true := by
  constructor
  · decide
  · rfl

/-- C2 (amended): a requested shrink is invisible to the Volume drift
detector — with the other compared fields equal it reports up to date —
and the Update pass issues no resize call on that input (completing on
the accepted path); only a grow, recorded size < desired size, triggers
the resize-and-await sub-operation. -/
theorem C2_volume_shrink_noop (cur target : VolumeParameters)
    (hl : mapDeepEqual target.labels cur.labels = true)
    (hs : ptrEq cur.serverID target.serverID = true) :
    (target.size < cur.size →
      volumeIsUpToDate target (some cur) = true
      ∧ ∀ now id vs s, VolCall.resize s ∉ (volumeUpdate now id vs cur target).1)
    ∧ (cur.size < target.size →
      ∀ now id vs,
        VolCall.resize target.size ∈ (volumeUpdate now id vs cur target).1
        ∧ VolCall.awaitAction ∈ (volumeUpdate now id vs cur target).1) := by
  constructor
  · intro hlt
    have hnot : ¬ (cur.size < target.size) := by omega
    constructor
    · simp [volumeIsUpToDate, hl, hs, hnot]
    · intro now id vs s
      simp [volumeUpdate, hs, hnot]
  · intro hgt now id vs
    constructor <;> simp [volumeUpdate, hs, hgt]

/-- C2 witness: a concrete shrink (20 → 10) and a concrete grow
(10 → 20). -/
theorem C2_volume_shrink_noop_witness :
    ((10 : Int) < 20
      ∧ volumeIsUpToDate ⟨10, false, "ext4", [], none, none⟩
          (some ⟨20, false, "ext4", [], none, none⟩) = true
      ∧ VolCall.resize 10
          ∉ (volumeUpdate 0 7 none ⟨20, false, "ext4", [], none, none⟩
              ⟨10, false, "ext4", [], none, none⟩).1)
    ∧ VolCall.resize 20
        ∈ (volumeUpdate 0 7 none ⟨10, false, "ext4", [], none, none⟩
            ⟨20, false, "ext4", [], none, none⟩).1 := by
  constructor
  · have h := (C2_volume_shrink_noop
      ⟨20, false, "ext4", [], none, none⟩ ⟨10, false, "ext4", [], none, none⟩
      (by rfl) (by rfl)).1 (by decide)
    exact ⟨by decide, h.1, h.2 0 7 none 10⟩
  · exact ((C2_volume_shrink_noop
      ⟨10, false, "ext4", [], none, none⟩ ⟨20, false, "ext4", [], none, none⟩
      (by rfl) (by rfl)).2 (by decide) 0 7 none).1

/-- C10: `external.Delete` of a Volume is well-defined exactly when the
recorded parameters exist and carry a server ID (it then detaches, awaits
and deletes); with absent parameters or a nil server ID it dereferences a
nil pointer (the `none` branch of the embedding) and never reaches the
delete call. -/
theorem C10_delete_nil_deref (st : VolumeObservation) :
    (st.params = none → volumeDelete st = none)
    ∧ (∀ p, st.params = some p → p.serverID = none → volumeDelete st = none)
    ∧ (∀ p ptr, st.params = some p → p.serverID = some ptr →
        volumeDelete st
          = some [VolCall.detach, VolCall.awaitAction,
              VolCall.deleteVolume st.id]) := by
  refine ⟨?_, ?_, ?_⟩
  · intro h; simp [volumeDelete, h]
  · intro p hp hsid; simp [volumeDelete, hp, hsid]
  · intro p ptr hp hsid; simp [volumeDelete, hp, hsid]

/-- C10 witness: a volume with no recorded parameters, one with no
recorded server, and one with a recorded server. -/
theorem C10_delete_nil_deref_witness :
    volumeDelete ⟨7, none⟩ = none
    ∧ volumeDelete ⟨7, some ⟨10, false, "ext4", [], none, none⟩⟩ = none
    ∧ volumeDelete ⟨7, some ⟨10, false, "ext4", [], none, some (0, 42)⟩⟩
        = some [VolCall.detach, VolCall.awaitAction, VolCall.deleteVolume 7] :=
  ⟨(C10_delete_nil_deref ⟨7, none⟩).1 rfl,
   (C10_delete_nil_deref _).2.1 _ rfl rfl,
   (C10_delete_nil_deref _).2.2 _ (0, 42) rfl rfl⟩

theorem parseCIDRs_ok (parse : String → Option IPNet) (ips : List String)
    (ns : List IPNet) (h : ips.map parse = ns.map some) :
    parseCIDRs parse ips = .ok ns := by
  induction ips generalizing ns with
  | nil =>
    cases ns with
    | nil => rfl
    | cons n ns => simp at h
  | cons ip rest ih =>
    cases ns with
    | nil => simp at h
    | cons n ns =>
      simp only [List.map_cons, List.cons.injEq] at h
      obtain ⟨h1, h2⟩ := h
      simp [parseCIDRs, h1, ih ns h2, Except.map]

theorem parseCIDRs_err (parse : String → Option IPNet) (ips : List String)
    (h : ∃ ip ∈ ips, parse ip = none) :
    ∃ e, parseCIDRs parse ips = .error e := by
  induction ips with
  | nil => simp at h
  | cons ip rest ih =>
    rcases h with ⟨x, hx, hnone⟩
    rcases List.mem_cons.mp hx with h1 | h1
    · subst h1
      exact ⟨"error parsing firewall cidr", by simp [parseCIDRs, hnone]⟩
    · rcases hp : parse ip with _ | n
      · exact ⟨"error parsing firewall cidr", by simp [parseCIDRs, hp]⟩
      · obtain ⟨e, he⟩ := ih ⟨x, h1, hnone⟩
        exact ⟨e, by simp [parseCIDRs, hp, he, Except.map]⟩

/-- C5: converting a firewall rule whose CIDR strings all parse yields,
for direction inbound, a provider rule with exactly the parsed CIDRs as
its source-address list and an empty destination list; for outbound the
mirror image; any unparsable CIDR makes the conversion fail with an
error. -/
theorem C5_firewall_rule_direction (parse : String → Option IPNet)
    (f : FirewallRules) :
    (∀ ns : List IPNet, f.targetIPs.map parse = ns.map some →
      (f.direction = .inbound →
        ∃ r, ToFirewallRule parse f = .ok r
          ∧ r.sourceIPs = ns ∧ r.destinationIPs = [])
      ∧ (f.direction = .outbound →
        ∃ r, ToFirewallRule parse f = .ok r
          ∧ r.destinationIPs = ns ∧ r.sourceIPs = []))
    ∧ ((∃ ip ∈ f.targetIPs, parse ip = none) →
      ∃ e, ToFirewallRule parse f = .error e) := by
  obtain ⟨dir, proto, ips, desc, port⟩ := f
  constructor
  · intro ns h
    have hok := parseCIDRs_ok parse ips ns h
    constructor
    · intro hdir
      cases dir with
      | outbound => cases hdir
      | inbound =>
        refine ⟨{ description := desc, direction := .inbound, protocol := proto,
                  port := if proto = .tcp ∨ proto = .udp
                          then some (FirewallPortGoString port) else none,
                  sourceIPs := ns, destinationIPs := [] }, ?_, rfl, rfl⟩
        simp [ToFirewallRule, hok]
    · intro hdir
      cases dir with
      | inbound => cases hdir
      | outbound =>
        refine ⟨{ description := desc, direction := .outbound, protocol := proto,
                  port := if proto = .tcp ∨ proto = .udp
                          then some (FirewallPortGoString port) else none,
                  sourceIPs := [], destinationIPs := ns }, ?_, rfl, rfl⟩
        simp [ToFirewallRule, hok]
  · intro h
    obtain ⟨e, he⟩ := parseCIDRs_err parse ips h
    exact ⟨e, by simp [ToFirewallRule, he]⟩

/-- C5 witness: the spec's example `["10.0.0.0/24"]` under the concrete
IPv4 parser, inbound and outbound, and a malformed CIDR. -/
theorem C5_firewall_rule_direction_witness :
    (["10.0.0.0/24"].map parseCIDRv4 = [IPNet.mk 167772160 24].map some)
    ∧ (∃ r, ToFirewallRule parseCIDRv4
          ⟨.inbound, .tcp, ["10.0.0.0/24"], none, some ⟨false, some 80, none⟩⟩
          = .ok r ∧ r.sourceIPs = [⟨167772160, 24⟩] ∧ r.destinationIPs = [])
    ∧ (∃ r, ToFirewallRule parseCIDRv4
          ⟨.outbound, .tcp, ["10.0.0.0/24"], none, some ⟨false, some 80, none⟩⟩
          = .ok r ∧ r.destinationIPs = [⟨167772160, 24⟩] ∧ r.sourceIPs = [])
    ∧ (∃ e, ToFirewallRule parseCIDRv4
          ⟨.inbound, .tcp, ["not-a-cidr"], none, none⟩ = .error e) := by
  have hmap : (["10.0.0.0/24"].map parseCIDRv4 = [IPNet.mk 167772160 24].map some) := by
    rfl
  refine ⟨hmap, ?_, ?_, ?_⟩
  · exact ((C5_firewall_rule_direction parseCIDRv4
      ⟨.inbound, .tcp, ["10.0.0.0/24"], none, some ⟨false, some 80, none⟩⟩).1
      [⟨167772160, 24⟩] hmap).1 rfl
  · exact ((C5_firewall_rule_direction parseCIDRv4
      ⟨.outbound, .tcp, ["10.0.0.0/24"], none, some ⟨false, some 80, none⟩⟩).1
      [⟨167772160, 24⟩] hmap).2 rfl
  · exact (C5_firewall_rule_direction parseCIDRv4
      ⟨.inbound, .tcp, ["not-a-cidr"], none, none⟩).2
      ⟨"not-a-cidr", by simp, by rfl⟩

theorem infix_extend_right {α : Type} {l A : List α} (h : l <:+: A)
    (B : List α) : l <:+: A ++ B := by
  obtain ⟨s, t, e⟩ := h
  exact ⟨s, t ++ B, by rw [← e]; simp [List.append_assoc]⟩

theorem infix_extend_left {α : Type} {l A : List α} (B : List α)
    (h : l <:+: A) : l <:+: B ++ A := by
  obtain ⟨s, t, e⟩ := h
  exact ⟨B ++ s, t, by rw [← e]; simp [List.append_assoc]⟩

theorem all_flatMap {α β : Type} (p : β → Bool) (f : α → List β)
    (l : List α) : ((l.flatMap f).all p) = l.all (fun a => (f a).all p) := by
  induction l with
  | nil => rfl
  | cons a l ih => simp [List.flatMap_cons, List.all_append, ih]

theorem infix_flatMap_mem {α β : Type} {a : α} {as : List α} (h : a ∈ as)
    (f : α → List β) : f a <:+: as.flatMap f := by
  induction as with
  | nil => cases h
  | cons x as ih =>
    rcases List.mem_cons.mp h with h1 | h1
    · subst h1
      exact ⟨[], as.flatMap f, by simp [List.flatMap_cons]⟩
    · rw [List.flatMap_cons]
      exact infix_extend_left _ (ih h1)

/-- C4 (amended): every differing compared field of a LoadBalancer
update pass dispatches its dedicated sub-operation — type, public
interface, algorithm, attached network and service set each issue their
provider calls, every async call immediately followed by its await —
and the desired parameters are recorded as `lastApplied` afterwards.
The target-set sub-operation, however, issues *no* provider call (its
source body is `return nil`): no call of the pass ever touches the
provider's target set, even when the target sets differ. -/
theorem C4_lb_update_dispatch (now : Int) (obs : ObservedLoadBalancer)
    (cur target : LoadBalancerParameters) :
    (target.type ≠ cur.type →
      lbUpdateType target <:+: (loadBalancerUpdate now obs cur target).1)
    ∧ (target.publicInterface ≠ cur.publicInterface →
      lbUpdatePublicInterface target <:+: (loadBalancerUpdate now obs cur target).1)
    ∧ (target.algorithm ≠ cur.algorithm →
      lbChangeAlgorithm target <:+: (loadBalancerUpdate now obs cur target).1)
    ∧ (ptrEq target.networkID cur.networkID = false →
      (∀ n ∈ obs.privateNetIDs,
        [LBCall.detachFromNetwork n, LBCall.awaitAction]
          <:+: (loadBalancerUpdate now obs cur target).1)
      ∧ (∀ a nid, target.networkID = some (a, nid) →
        [LBCall.attachToNetwork nid, LBCall.awaitAction]
          <:+: (loadBalancerUpdate now obs cur target).1))
    ∧ (target.services ≠ cur.services →
      (∀ p ∈ obs.serviceListenPorts,
        [LBCall.deleteService p, LBCall.awaitAction]
          <:+: (loadBalancerUpdate now obs cur target).1)
      ∧ (∀ s ∈ target.services,
        [LBCall.addService s, LBCall.awaitAction]
          <:+: (loadBalancerUpdate now obs cur target).1))
    ∧ ((loadBalancerUpdate now obs cur target).1.all
        (fun c => !(c.touchesTargets)) = true)
    ∧ (loadBalancerUpdate now obs cur target).2 = target := by
  refine ⟨?_, ?_, ?_, ?_, ?_, ?_, rfl⟩
  · intro h
    refine ⟨[LBCall.getLoadBalancer obs.id,
      LBCall.updateLabels (ApplyDefaultLabels now [target.labels])],
      (if target.publicInterface ≠ cur.publicInterface
       then lbUpdatePublicInterface target else [])
      ++ (if target.algorithm ≠ cur.algorithm then lbChangeAlgorithm target else [])
      ++ (if !(ptrEq target.networkID cur.networkID)
          then lbChangeNetwork obs target else [])
      ++ (if target.services ≠ cur.services then lbUpdateServices obs target else [])
      ++ (if target.targets ≠ cur.targets then lbUpdateTargets obs target else []), ?_⟩
    simp [loadBalancerUpdate, h, List.append_assoc]
  · intro h
    refine ⟨[LBCall.getLoadBalancer obs.id,
      LBCall.updateLabels (ApplyDefaultLabels now [target.labels])]
      ++ (if target.type ≠ cur.type then lbUpdateType target else []),
      (if target.algorithm ≠ cur.algorithm then lbChangeAlgorithm target else [])
      ++ (if !(ptrEq target.networkID cur.networkID)
          then lbChangeNetwork obs target else [])
      ++ (if target.services ≠ cur.services then lbUpdateServices obs target else [])
      ++ (if target.targets ≠ cur.targets then lbUpdateTargets obs target else []), ?_⟩
    simp [loadBalancerUpdate, h, List.append_assoc]
  · intro h
    refine ⟨[LBCall.getLoadBalancer obs.id,
      LBCall.updateLabels (ApplyDefaultLabels now [target.labels])]
      ++ (if target.type ≠ cur.type then lbUpdateType target else [])
      ++ (if target.publicInterface ≠ cur.publicInterface
          then lbUpdatePublicInterface target else []),
      (if !(ptrEq target.networkID cur.networkID)
       then lbChangeNetwork obs target else [])
      ++ (if target.services ≠ cur.services then lbUpdateServices obs target else [])
      ++ (if target.targets ≠ cur.targets then lbUpdateTargets obs target else []), ?_⟩
    simp [loadBalancerUpdate, h, List.append_assoc]
  · intro h
    have hseg : lbChangeNetwork obs target
        <:+: (loadBalancerUpdate now obs cur target).1 := by
      refine ⟨[LBCall.getLoadBalancer obs.id,
        LBCall.updateLabels (ApplyDefaultLabels now [target.labels])]
        ++ (if target.type ≠ cur.type then lbUpdateType target else [])
        ++ (if target.publicInterface ≠ cur.publicInterface
            then lbUpdatePublicInterface target else [])
        ++ (if target.algorithm ≠ cur.algorithm then lbChangeAlgorithm target else []),
        (if target.services ≠ cur.services then lbUpdateServices obs target else [])
        ++ (if target.targets ≠ cur.targets then lbUpdateTargets obs target else []), ?_⟩
      simp [loadBalancerUpdate, h, List.append_assoc]
    constructor
    · intro n hn
      exact (infix_extend_right
        (infix_flatMap_mem hn
          (fun n => [LBCall.detachFromNetwork n, LBCall.awaitAction])) _).trans hseg
    · intro a nid hnid
      refine List.IsInfix.trans ?_ hseg
      exact ⟨obs.privateNetIDs.flatMap
        (fun n => [LBCall.detachFromNetwork n, LBCall.awaitAction]), [],
        by simp [lbChangeNetwork, hnid]⟩
  · intro h
    have hseg : lbUpdateServices obs target
        <:+: (loadBalancerUpdate now obs cur target).1 := by
      refine ⟨[LBCall.getLoadBalancer obs.id,
        LBCall.updateLabels (ApplyDefaultLabels now [target.labels])]
        ++ (if target.type ≠ cur.type then lbUpdateType target else [])
        ++ (if target.publicInterface ≠ cur.publicInterface
            then lbUpdatePublicInterface target else [])
        ++ (if target.algorithm ≠ cur.algorithm then lbChangeAlgorithm target else [])
        ++ (if !(ptrEq target.networkID cur.networkID)
            then lbChangeNetwork obs target else []),
        (if target.targets ≠ cur.targets then lbUpdateTargets obs target else []), ?_⟩
      simp [loadBalancerUpdate, h, List.append_assoc]
    constructor
    · intro p hp
      exact (infix_extend_right
        (infix_flatMap_mem hp
          (fun p => [LBCall.deleteService p, LBCall.awaitAction])) _).trans hseg
    · intro s hs
      exact (infix_extend_left _
        (infix_flatMap_mem hs
          (fun s => [LBCall.addService s, LBCall.awaitAction]))).trans hseg
  · rw [List.all_eq_true]
    intro c hc
    simp only [loadBalancerUpdate, List.mem_append] at hc
    rcases hc with ((((((hc | hc) | hc) | hc) | hc) | hc) | hc)
    · simp only [List.mem_cons, List.not_mem_nil, or_false] at hc
      rcases hc with rfl | rfl <;> rfl
    · split at hc
      · simp only [lbUpdateType, List.mem_cons, List.not_mem_nil, or_false] at hc
        rcases hc with rfl | rfl <;> rfl
      · simp at hc
    · split at hc
      · unfold lbUpdatePublicInterface at hc
        split at hc <;>
        · simp only [List.mem_cons, List.not_mem_nil, or_false] at hc
          rcases hc with rfl | rfl <;> rfl
      · simp at hc
    · split at hc
      · simp only [lbChangeAlgorithm, List.mem_cons, List.not_mem_nil,
          or_false] at hc
        rcases hc with rfl | rfl <;> rfl
      · simp at hc
    · split at hc
      · unfold lbChangeNetwork at hc
        rcases List.mem_append.mp hc with hc | hc
        · obtain ⟨n, _, hn⟩ := List.mem_flatMap.mp hc
          simp only [List.mem_cons, List.not_mem_nil, or_false] at hn
          rcases hn with rfl | rfl <;> rfl
        · rcases htn : target.networkID with _ | ⟨a, nid⟩ <;> rw [htn] at hc
          · simp at hc
          · simp only [List.mem_cons, List.not_mem_nil, or_false] at hc
            rcases hc with rfl | rfl <;> rfl
      · simp at hc
    · split at hc
      · unfold lbUpdateServices at hc
        rcases List.mem_append.mp hc with hc | hc
        · obtain ⟨p, _, hp⟩ := List.mem_flatMap.mp hc
          simp only [List.mem_cons, List.not_mem_nil, or_false] at hp
          rcases hp with rfl | rfl <;> rfl
        · obtain ⟨s, _, hs⟩ := List.mem_flatMap.mp hc
          simp only [List.mem_cons, List.not_mem_nil, or_false] at hs
          rcases hs with rfl | rfl <;> rfl
      · simp at hc
    · split at hc <;> simp [lbUpdateTargets] at hc

/-- C4 (counterexample): a pass whose desired and recorded parameters
differ only in the target set issues exactly the fetch and the
unconditional label update — no provider call that changes the load
balancer's targets is made (the targets sub-operation is a stub), yet
the differing target set is recorded into `lastApplied`. -/
theorem C4_differing_targets_no_provider_call :
    (([⟨"server", none, some 42, none, false⟩] : List LoadBalancerTarget) ≠ [])
    ∧ (loadBalancerUpdate 0 ⟨5, [], []⟩
        ⟨"lb11", "round_robin", [], none, "", none, true, [], []⟩
        ⟨"lb11", "round_robin", [], none, "", none, true, [],
          [⟨"server", none, some 42, none, false⟩]⟩).1
        = [LBCall.getLoadBalancer 5, LBCall.updateLabels (ApplyDefaultLabels 0 [[]])]
    ∧ ((loadBalancerUpdate 0 ⟨5, [], []⟩
        ⟨"lb11", "round_robin", [], none, "", none, true, [], []⟩
        ⟨"lb11", "round_robin", [], none, "", none, true, [],
          [⟨"server", none, some 42, none, false⟩]⟩).1.all
          (fun c => !(c.touchesTargets)) = true)
    ∧ (loadBalancerUpdate 0 ⟨5, [], []⟩
        ⟨"lb11", "round_robin", [], none, "", none, true, [], []⟩
        ⟨"lb11", "round_robin", [], none, "", none, true, [],
          [⟨"server", none, some 42, none, false⟩]⟩).2.targets
        = [⟨"server", none, some 42, none, false⟩] := by
  refine ⟨by decide, by rfl, by rfl, by rfl⟩

/-- C4 witness: the dispatch theorem applied to a concrete pass where
type, algorithm and service set all differ. -/
theorem C4_lb_update_dispatch_witness :
    (("lb21" : String) ≠ "lb11"
      ∧ lbUpdateType
          ⟨"lb21", "least_connections", [], none, "", none, true,
            [⟨8080, ⟨"http", some 80, none, none, none, none⟩, 80, "http", true, none⟩], []⟩
        <:+: (loadBalancerUpdate 0 ⟨5, [], [443]⟩
          ⟨"lb11", "round_robin", [], none, "", none, true, [], []⟩
          ⟨"lb21", "least_connections", [], none, "", none, true,
            [⟨8080, ⟨"http", some 80, none, none, none, none⟩, 80, "http", true, none⟩], []⟩).1)
    ∧ [LBCall.deleteService 443, LBCall.awaitAction]
        <:+: (loadBalancerUpdate 0 ⟨5, [], [443]⟩
          ⟨"lb11", "round_robin", [], none, "", none, true, [], []⟩
          ⟨"lb21", "least_connections", [], none, "", none, true,
            [⟨8080, ⟨"http", some 80, none, none, none, none⟩, 80, "http", true, none⟩], []⟩).1 := by
  constructor
  · refine ⟨by decide, ?_⟩
    exact (C4_lb_update_dispatch 0 ⟨5, [], [443]⟩
      ⟨"lb11", "round_robin", [], none, "", none, true, [], []⟩
      ⟨"lb21", "least_connections", [], none, "", none, true,
        [⟨8080, ⟨"http", some 80, none, none, none, none⟩, 80, "http", true, none⟩], []⟩).1
      (by decide)
  · exact ((C4_lb_update_dispatch 0 ⟨5, [], [443]⟩
      ⟨"lb11", "round_robin", [], none, "", none, true, [], []⟩
      ⟨"lb21", "least_connections", [], none, "", none, true,
        [⟨8080, ⟨"http", some 80, none, none, none, none⟩, 80, "http", true, none⟩], []⟩).2.2.2.2.1
      (by decide)).1 443 (by decide)

theorem resize_not_mem_attachment (vs : Option Int)
    (params : List VolumeParameters) (s : Int) :
    VolCall.resize s ∉ volumeUpdateServerAttachment vs params := by
  intro hc
  unfold volumeUpdateServerAttachment at hc
  rcases List.mem_append.mp hc with hc | hc
  · rcases vs with _ | v <;> simp at hc
  · obtain ⟨p, _, hp⟩ := List.mem_flatMap.mp hc
    rcases hsid : p.serverID with _ | ptr <;> rw [hsid] at hp <;> simp at hp

/-- C3 (counterexample): the Volume Update pass with a desired size
strictly below the recorded size issues only the fetch and the label
update — no size mutation at all — yet overwrites the recorded
`lastApplied` size with the desired value: a field is recorded as
applied although no provider mutation for it was issued. -/
theorem C3_shrink_records_unapplied_size :
    (volumeUpdate 0 7 none ⟨20, false, "ext4", [], none, none⟩
        ⟨10, false, "ext4", [], none, none⟩).1
      = [VolCall.getVolume 7, VolCall.updateLabels (ApplyDefaultLabels 0 [[]])]
    ∧ (volumeUpdate 0 7 none ⟨20, false, "ext4", [], none, none⟩
        ⟨10, false, "ext4", [], none, none⟩).2.size = 10
    ∧ ((10 : Int) ≠ 20) :=
  ⟨rfl, rfl, by decide⟩

/-- C3 (amended): across the cited Update operations, each mutated field
is written to `lastApplied` only together with its issued-and-awaited
provider mutation, with two exceptions the code makes: the Volume pass
records the desired size even on a shrink, when it issues no resize (a
grow does get resize-and-await); and the LoadBalancer pass records the
desired target set although no call of the pass mutates targets.  The
Network pass never records desired routes or subnets — they are copied
forward — and issues change-IP-range (awaited) exactly when the range
differs. -/
theorem C3_lastApplied_discipline (now : Int) :
    (∀ (id : Int) (vs : Option Int) (cur target : VolumeParameters),
      ((volumeUpdate now id vs cur target).2 =
        { cur with labels := target.labels, serverID := target.serverID,
                   size := target.size })
      ∧ (cur.size < target.size →
          [VolCall.resize target.size, VolCall.awaitAction]
            <:+: (volumeUpdate now id vs cur target).1)
      ∧ (target.size ≤ cur.size →
          ∀ s, VolCall.resize s ∉ (volumeUpdate now id vs cur target).1)
      ∧ (ptrEq cur.serverID target.serverID = false →
          ∀ a sid, target.serverID = some (a, sid) →
            [VolCall.attach sid target.automount, VolCall.awaitAction]
              <:+: (volumeUpdate now id vs cur target).1)
      ∧ (VolCall.updateLabels (ApplyDefaultLabels now [target.labels])
          ∈ (volumeUpdate now id vs cur target).1))
    ∧ (∀ (id : Int) (cur target : NetworkParameters),
      ((networkUpdate now id cur target).2.routes = cur.routes)
      ∧ ((networkUpdate now id cur target).2.subnets = cur.subnets)
      ∧ (target.ipRange ≠ cur.ipRange →
          [NetCall.changeIPRange target.ipRange, NetCall.awaitAction]
            <:+: (networkUpdate now id cur target).1)
      ∧ (target.ipRange = cur.ipRange →
          (∀ r, NetCall.changeIPRange r ∉ (networkUpdate now id cur target).1)
          ∧ (networkUpdate now id cur target).2.ipRange = cur.ipRange))
    ∧ (∀ (obs : ObservedLoadBalancer) (cur target : LoadBalancerParameters),
      ((loadBalancerUpdate now obs cur target).2.targets = target.targets)
      ∧ ((loadBalancerUpdate now obs cur target).1.all
          (fun c => !(c.touchesTargets)) = true)) := by
  refine ⟨?_, ?_, ?_⟩
  · intro id vs cur target
    refine ⟨rfl, ?_, ?_, ?_, ?_⟩
    · intro hlt
      refine ⟨[VolCall.getVolume id,
        VolCall.updateLabels (ApplyDefaultLabels now [target.labels])]
        ++ (if !(ptrEq cur.serverID target.serverID)
            then volumeUpdateServerAttachment vs [target] else []), [], ?_⟩
      simp [volumeUpdate, hlt, List.append_assoc]
    · intro hle s hc
      have hnot : ¬ (cur.size < target.size) := by omega
      simp only [volumeUpdate, List.mem_append] at hc
      rcases hc with (hc | hc) | hc
      · simp at hc
      · split at hc
        · exact resize_not_mem_attachment vs [target] s hc
        · simp at hc
      · simp [hnot] at hc
    · intro hne a sid hsid
      have hb : (!(ptrEq cur.serverID target.serverID)) = true := by simp [hne]
      have hbig : volumeUpdateServerAttachment vs [target]
          <:+: (volumeUpdate now id vs cur target).1 :=
        ⟨[VolCall.getVolume id,
          VolCall.updateLabels (ApplyDefaultLabels now [target.labels])],
         (if cur.size < target.size
          then [VolCall.resize target.size, VolCall.awaitAction] else []),
         by simp [volumeUpdate, hb, List.append_assoc]⟩
      refine List.IsInfix.trans ?_ hbig
      unfold volumeUpdateServerAttachment
      refine infix_extend_left _ ?_
      simp only [List.flatMap_cons, List.flatMap_nil, hsid, List.append_nil]
      exact ⟨[], [], by simp⟩
    · simp [volumeUpdate]
  · intro id cur target
    refine ⟨rfl, rfl, ?_, ?_⟩
    · intro h
      exact ⟨[NetCall.getNetwork id,
        NetCall.updateNetwork target.exposeRoutesToVSwitch
          (ApplyDefaultLabels now [target.labels])], [],
        by simp [networkUpdate, h]⟩
    · intro h
      constructor
      · intro r hc
        simp [networkUpdate, h] at hc
      · simp [networkUpdate, h]
  · intro obs cur target
    constructor
    · rfl
    · rw [List.all_eq_true]
      intro c hc
      simp only [loadBalancerUpdate, List.mem_append] at hc
      rcases hc with ((((((hc | hc) | hc) | hc) | hc) | hc) | hc)
      · simp only [List.mem_cons, List.not_mem_nil, or_false] at hc
        rcases hc with rfl | rfl <;> rfl
      · split at hc
        · simp only [lbUpdateType, List.mem_cons, List.not_mem_nil,
            or_false] at hc
          rcases hc with rfl | rfl <;> rfl
        · simp at hc
      · split at hc
        · unfold lbUpdatePublicInterface at hc
          split at hc <;>
          · simp only [List.mem_cons, List.not_mem_nil, or_false] at hc
            rcases hc with rfl | rfl <;> rfl
        · simp at hc
      · split at hc
        · simp only [lbChangeAlgorithm, List.mem_cons, List.not_mem_nil,
            or_false] at hc
          rcases hc with rfl | rfl <;> rfl
        · simp at hc
      · split at hc
        · unfold lbChangeNetwork at hc
          rcases List.mem_append.mp hc with hc | hc
          · obtain ⟨n, _, hn⟩ := List.mem_flatMap.mp hc
            simp only [List.mem_cons, List.not_mem_nil, or_false] at hn
            rcases hn with rfl | rfl <;> rfl
          · rcases htn : target.networkID with _ | ⟨a, nid⟩ <;> rw [htn] at hc
            · simp at hc
            · simp only [List.mem_cons, List.not_mem_nil, or_false] at hc
              rcases hc with rfl | rfl <;> rfl
        · simp at hc
      · split at hc
        · unfold lbUpdateServices at hc
          rcases List.mem_append.mp hc with hc | hc
          · obtain ⟨p, _, hp⟩ := List.mem_flatMap.mp hc
            simp only [List.mem_cons, List.not_mem_nil, or_false] at hp
            rcases hp with rfl | rfl <;> rfl
          · obtain ⟨s, _, hs⟩ := List.mem_flatMap.mp hc
            simp only [List.mem_cons, List.not_mem_nil, or_false] at hs
            rcases hs with rfl | rfl <;> rfl
        · simp at hc
      · split at hc <;> simp [lbUpdateTargets] at hc

/-- C3 witness: a concrete grow issues resize-and-await; a concrete
network pass copies the previously recorded route forward. -/
theorem C3_lastApplied_discipline_witness :
    ((10 : Int) < 20
      ∧ [VolCall.resize 20, VolCall.awaitAction]
          <:+: (volumeUpdate 0 7 none ⟨10, false, "ext4", [], none, none⟩
            ⟨20, false, "ext4", [], none, none⟩).1)
    ∧ (networkUpdate 0 3
        ⟨"10.0.0.0/16", [], [⟨"10.1.0.0/24", "10.0.0.1"⟩], [], false⟩
        ⟨"10.0.0.0/16", [], [], [], false⟩).2.routes
        = [⟨"10.1.0.0/24", "10.0.0.1"⟩] := by
  constructor
  · exact ⟨by decide,
      ((C3_lastApplied_discipline 0).1 7 none
        ⟨10, false, "ext4", [], none, none⟩
        ⟨20, false, "ext4", [], none, none⟩).2.1 (by decide)⟩
  · exact ((C3_lastApplied_discipline 0).2.1 3
      ⟨"10.0.0.0/16", [], [⟨"10.1.0.0/24", "10.0.0.1"⟩], [], false⟩
      ⟨"10.0.0.0/16", [], [], [], false⟩).1

/-- C9: after one successful Update, the recorded `lastApplied` makes
every kind's drift detector report up to date (the Firewall conjunct is
conditional on its rule conversion having succeeded, via `toOption`);
for Volume and LoadBalancer a second Update against that record issues
only the unconditional fetch-and-label-update calls — every gated
sub-operation stays silent. -/
theorem C9_update_idempotent (now : Int) :
    (∀ (id : Int) (vs : Option Int) (cur target : VolumeParameters),
      volumeIsUpToDate target (some (volumeUpdate now id vs cur target).2) = true)
    ∧ (∀ (id : Int) (cur target : ServerParameters),
      serverIsUpToDate target (some (serverUpdate now id cur target).2) = true)
    ∧ (∀ (parse : String → Option IPNet) (id : Int)
        (applied : List FirewallApplyTo) (target : FirewallParameters),
      ((firewallUpdate parse now id applied target).toOption.all
        (fun r => firewallIsUpToDate target (some r.2))) = true)
    ∧ (∀ (obs : ObservedLoadBalancer) (cur target : LoadBalancerParameters),
      loadBalancerIsUpToDate target
        (some (loadBalancerUpdate now obs cur target).2) = true)
    ∧ (∀ (id : Int) (cur target : NetworkParameters),
      networkIsUpToDate target (some (networkUpdate now id cur target).2) = true)
    ∧ (∀ (id : Int) (cur target : PlacementGroupParameters),
      placementGroupIsUpToDate target
        (some (placementGroupUpdate now id cur target).2) = true)
    ∧ (∀ (id : Int) (vs : Option Int) (cur target : VolumeParameters)
        (id2 : Int) (vs2 : Option Int),
      (volumeUpdate now id2 vs2 (volumeUpdate now id vs cur target).2 target).1
        = [VolCall.getVolume id2,
           VolCall.updateLabels (ApplyDefaultLabels now [target.labels])])
    ∧ (∀ (obs obs2 : ObservedLoadBalancer) (cur target : LoadBalancerParameters),
      (loadBalancerUpdate now obs2 (loadBalancerUpdate now obs cur target).2
        target).1
        = [LBCall.getLoadBalancer obs2.id,
           LBCall.updateLabels (ApplyDefaultLabels now [target.labels])]) := by
  refine ⟨?_, ?_, ?_, ?_, ?_, ?_, ?_, ?_⟩
  · intro id vs cur target
    simp [volumeUpdate, volumeIsUpToDate, mapDeepEqual_refl, ptrEq_refl]
  · intro id cur target
    simp [serverUpdate, serverIsUpToDate, mapDeepEqual_refl]
  · intro parse id applied target
    unfold firewallUpdate
    rcases h : getFirewallRules parse target.rules with e | rules
    · simp [Except.toOption]
    · simp [Except.toOption, firewallIsUpToDate, mapDeepEqual_refl]
  · intro obs cur target
    simp [loadBalancerUpdate, loadBalancerIsUpToDate, mapDeepEqual_refl,
      ptrEq_refl]
  · intro id cur target
    simp [networkUpdate, networkIsUpToDate, mapDeepEqual_refl]
  · intro id cur target
    simp [placementGroupUpdate, placementGroupIsUpToDate, mapDeepEqual_refl]
  · intro id vs cur target id2 vs2
    simp [volumeUpdate, ptrEq_refl]
  · intro obs obs2 cur target
    simp [loadBalancerUpdate, ptrEq_refl]

theorem upsertKeys_no_create (env : ServerEnv) (keys : List String) :
    SCall.createServer ∉ (upsertKeys env keys).1 := by
  induction keys with
  | nil => simp [upsertKeys]
  | cons k rest ih =>
    rcases hk : env.sshKeyUpsert k with e | i <;>
      simp [upsertKeys, hk, ih]

/-- C7: whenever any cross-reference of a Server Create pass fails to
resolve — datacenter-or-location, a firewall, the image, a network, the
placement group, the server type, a volume, or an SSH key upsert — the
pass returns an error, the server-creation provider call is never made,
and the recorded state (providerID and `lastApplied`) is unchanged. -/
theorem C7_create_resolves_refs_first (env : ServerEnv)
    (spec : ServerParameters) (st : ServerObservation)
    (h : anyServerRefFails env spec = true) :
    ((serverCreate env spec st).err.isSome = true)
    ∧ (SCall.createServer ∉ (serverCreate env spec st).trace)
    ∧ ((serverCreate env spec st).state = st) := by
  rcases h1 : getDatacenterOrLocation env spec.datacenter spec.location with e | v1
  · simp [serverCreate, h1]
  rcases h2 : resolveRefs env.firewallByID "unknown firewall" spec.firewallIDs
    with e | v2
  · simp [serverCreate, h1, h2]
  rcases h3 : env.imageByName spec.image spec.architecture with m | _ | i3
  · simp [serverCreate, h1, h2, h3]
  · simp [serverCreate, h1, h2, h3]
  rcases h4 : resolveRefs env.networkByID "unknown network" spec.networkIDs
    with e | v4
  · simp [serverCreate, h1, h2, h3, h4]
  rcases hpid : spec.placementGroupID with _ | pid
  case _ =>
    rcases h5 : env.serverTypeByName spec.serverType with m | _ | i5
    · simp [serverCreate, h1, h2, h3, h4, hpid, h5]
    · simp [serverCreate, h1, h2, h3, h4, hpid, h5]
    rcases h6 : resolveRefs env.volumeByID "unknown volume" spec.volumeIDs
      with e | v6
    · simp [serverCreate, h1, h2, h3, h4, hpid, h5, h6]
    rcases hss : upsertKeys env spec.sshKeys with ⟨trK, res⟩
    rcases res with e | u
    · have hnc := upsertKeys_no_create env spec.sshKeys
      rw [hss] at hnc
      simp [serverCreate, h1, h2, h3, h4, hpid, h5, h6, hss, hnc]
    · exfalso
      simp [anyServerRefFails, h1, h2, h3, h4, hpid, h5, h6, hss, isErr] at h
  case _ =>
    rcases hpg : env.placementGroupByID pid with m | _ | ipg
    · simp [serverCreate, h1, h2, h3, h4, hpid, hpg]
    · simp [serverCreate, h1, h2, h3, h4, hpid, hpg]
    rcases h5 : env.serverTypeByName spec.serverType with m | _ | i5
    · simp [serverCreate, h1, h2, h3, h4, hpid, hpg, h5]
    · simp [serverCreate, h1, h2, h3, h4, hpid, hpg, h5]
    rcases h6 : resolveRefs env.volumeByID "unknown volume" spec.volumeIDs
      with e | v6
    · simp [serverCreate, h1, h2, h3, h4, hpid, hpg, h5, h6]
    rcases hss : upsertKeys env spec.sshKeys with ⟨trK, res⟩
    rcases res with e | u
    · have hnc := upsertKeys_no_create env spec.sshKeys
      rw [hss] at hnc
      simp [serverCreate, h1, h2, h3, h4, hpid, hpg, h5, h6, hss, hnc]
    · exfalso
      simp [anyServerRefFails, h1, h2, h3, h4, hpid, hpg, h5, h6, hss, isErr] at h

/-- C7 witness: with every reference resolving except the image, the
pass errors, makes no create call, and leaves the state untouched. -/
theorem C7_create_resolves_refs_first_witness :
    anyServerRefFails serverEnvNoImage serverSpecExample = true
    ∧ ((serverCreate serverEnvNoImage serverSpecExample ⟨0, none⟩).err.isSome = true
      ∧ SCall.createServer
          ∉ (serverCreate serverEnvNoImage serverSpecExample ⟨0, none⟩).trace
      ∧ (serverCreate serverEnvNoImage serverSpecExample ⟨0, none⟩).state
          = ⟨0, none⟩) :=
  ⟨rfl, C7_create_resolves_refs_first serverEnvNoImage serverSpecExample
    ⟨0, none⟩ rfl⟩

end Hetzner
